import Mathlib

/-!
Verification of the WAF ML integration core (`waf_ml_integration.py`).

The embedding models the classification decision path of `WAFMLDetector`:
feature extraction for the volumetric (DDoS) and injection (SQL/XSS)
detectors, z-score standardization of the injection vector, the fail-closed
detector wrappers, the fusion decision in `analyze_request`, and the
performance-log append.  Python floats are modelled as rationals (`ℚ`);
the opaque Keras model handles are modelled as optional fallible scoring
functions `Option (List ℚ → Except Unit ℚ)`; a raised Python exception is
modelled as `Except.error`.
-/

namespace WAF

/-- A request record (`request_data` dict).  Every field is optional,
mirroring `dict.get` with a default in the Python source. -/
structure RequestData where
  uri : Option String
  query_string : Option String
  post_data : Option String
  user_agent : Option String
  headers : Option (List (String × String))
  content_length : Option Int
  connection_count : Option Int

/-- Non-overlapping substring-occurrence count, the semantics of Python's
`str.count` for a non-empty pattern (the source only counts non-empty
patterns). -/
def countSub (pat : List Char) : List Char → Nat
  | [] => 0
  | c :: rest =>
    if pat.isPrefixOf (c :: rest) && !pat.isEmpty then
      countSub pat (rest.drop (pat.length - 1)) + 1
    else
      countSub pat rest
termination_by l => l.length
decreasing_by
  · simp only [List.length_drop, List.length_cons]
    omega
  · simp only [List.length_cons]
    omega

/-- `WAFMLDetector.extract_ddos_features`: five request-shape signals plus
25 filler values 0.5, truncated to 30. -/
def extract_ddos_features (r : RequestData) : List ℚ :=
  let features : List ℚ :=
    [ ((r.uri.getD "").length : ℚ),
      ((r.user_agent.getD "").length : ℚ),
      ((r.content_length.getD 0 : ℤ) : ℚ),
      ((r.headers.getD []).length : ℚ),
      ((r.connection_count.getD 1 : ℤ) : ℚ) ]
    ++ List.replicate 25 (1/2 : ℚ)
  features.take 30

/-- `WAFMLDetector.extract_sql_xss_features`: 15 features derived from
`f"{uri} {query_string} {post_data}"` (space-joined). -/
def extract_sql_xss_features (r : RequestData) : List ℚ :=
  let uri := r.uri.getD ""
  let query_string := r.query_string.getD ""
  let post_data := r.post_data.getD ""
  let combined_input := uri ++ " " ++ query_string ++ " " ++ post_data
  let cs := combined_input.data
  let features : List ℚ :=
    [ (cs.length : ℚ),
      (countSub [Char.ofNat 39] cs : ℚ),
      (countSub [Char.ofNat 34] cs : ℚ),
      (countSub "--".data cs : ℚ),
      (countSub "UNION".data cs : ℚ),
      (countSub "SELECT".data cs : ℚ),
      (countSub "INSERT".data cs : ℚ),
      (countSub "DELETE".data cs : ℚ),
      (countSub "<script>".data cs : ℚ),
      (countSub "javascript:".data cs : ℚ),
      (countSub "onload=".data cs : ℚ),
      (countSub "alert(".data cs : ℚ),
      (if 0 < countSub "sql".data (cs.map Char.toLower)
          ∨ 0 < countSub "xss".data (cs.map Char.toLower)
          ∨ 0 < countSub "script".data (cs.map Char.toLower) then (1 : ℚ) else 0),
      (query_string.length : ℚ),
      (post_data.length : ℚ) ]
  features.take 15

/-- An opaque scoring model: maps a feature vector to a probability, or
raises (an inference error). -/
def Model : Type := List ℚ → Except Unit ℚ

/-- `self.sql_xss_mean` from `WAFMLDetector.__init__`. -/
def sql_xss_mean : List ℚ :=
  [535597.58, 54248.0, 552328.0, 552328.0, 939861.72,
   401200.85, 416281.84, 425711.76, 445365.96, 448604.63,
   519850.86, 454755.03, 1.0, 512772.62, 552328.0]

/-- `self.sql_xss_scale` from `WAFMLDetector.__init__`. -/
def sql_xss_scale : List ℚ :=
  [277667.80, 1.0, 1.0, 1.0, 76029.01,
   262225.14, 274441.45, 273016.26, 291008.87, 283933.66,
   267792.49, 270823.82, 0.0, 279089.91, 1.0]

/-- The standardization list comprehension in `detect_sql_xss`:
`[(float(x) - m) / s if s != 0 else 0 for x, m, s in zip(features, mean, scale)]`.
Like Python's `zip`, it stops at the shortest list. -/
def standardize : List ℚ → List ℚ → List ℚ → List ℚ
  | x :: xs, m :: ms, s :: ss =>
    (if s = 0 then 0 else (x - m) / s) :: standardize xs ms ss
  | _, _, _ => []

/-- Body of the `try` block of `WAFMLDetector.detect_ddos` (the model is
loaded).  Both feature extraction and inference are fallible here: any
`Except.error` models an exception caught by the surrounding `except`,
which returns `(True, 1.0)`. -/
def detect_ddos_core (extract : RequestData → Except Unit (List ℚ))
    (predict : Model) (threshold : ℚ) (r : RequestData) : Bool × ℚ :=
  match extract r with
  | Except.error _ => (true, 1)
  | Except.ok features =>
    if features.length ≠ 30 then (true, 1)
    else
      match predict features with
      | Except.error _ => (true, 1)
      | Except.ok p => (decide (threshold < p), p)

/-- `WAFMLDetector.detect_ddos`: returns `(False, 0.0)` when the model
handle is `None`, otherwise runs the fallible core. -/
def detect_ddos (model : Option Model) (threshold : ℚ) (r : RequestData) :
    Bool × ℚ :=
  match model with
  | none => (false, 0)
  | some predict =>
    detect_ddos_core (fun x => Except.ok (extract_ddos_features x)) predict
      threshold r

/-- Body of the `try` block of `WAFMLDetector.detect_sql_xss` (the model is
loaded): extract, check length 15, standardize, score. -/
def detect_sql_xss_core (extract : RequestData → Except Unit (List ℚ))
    (predict : Model) (threshold : ℚ) (r : RequestData) : Bool × ℚ :=
  match extract r with
  | Except.error _ => (true, 1)
  | Except.ok features =>
    if features.length ≠ 15 then (true, 1)
    else
      match predict (standardize features sql_xss_mean sql_xss_scale) with
      | Except.error _ => (true, 1)
      | Except.ok p => (decide (threshold < p), p)

/-- `WAFMLDetector.detect_sql_xss`: returns `(False, 0.0)` when the model
handle is `None`, otherwise runs the fallible core. -/
def detect_sql_xss (model : Option Model) (threshold : ℚ) (r : RequestData) :
    Bool × ℚ :=
  match model with
  | none => (false, 0)
  | some predict =>
    detect_sql_xss_core (fun x => Except.ok (extract_sql_xss_features x))
      predict threshold r

/-- The verdict reason strings of `analyze_request`. -/
inductive Reason where
  | allowed
  | ddos_attack
  | sql_xss_attack
  | analysis_error
deriving DecidableEq, Repr

/-- The `results` dict returned by `analyze_request`. -/
structure Results where
  timestamp : ℚ
  processing_time : ℚ
  blocked : Bool
  ddos_detected : Bool
  sql_xss_detected : Bool
  ddos_score : ℚ
  sql_xss_score : ℚ
  reason : Reason
deriving DecidableEq, Repr

/-- One line of the performance log
(`f"{timestamp},{processing_time:.6f},{blocked}\n"`), modelled field-wise:
the three comma-separated fields of the appended line. -/
structure PerfLine where
  timestamp : ℚ
  processing_time : ℚ
  blocked : Bool
deriving DecidableEq, Repr

/-- The `:.6f` formatting of the processing time: rounding to six decimal
places. -/
def fmt6 (t : ℚ) : ℚ := ((round (t * 1000000) : ℤ) : ℚ) / 1000000

/-- `WAFMLDetector.analyze_request`.  `ts` is `time.time()` at entry,
`pt` the measured processing time; `auditOk` is whether the append to
`CONFIG['performance_log']` succeeds (an exception there is caught by the
outer `except`, which overrides the verdict to blocked / analysis_error).
Returns the results dict and the new performance log. -/
def analyze_request (ddos_model sql_xss_model : Option Model)
    (ddos_threshold sql_xss_threshold : ℚ) (r : RequestData) (ts pt : ℚ)
    (auditOk : Bool) (log : List PerfLine) : Results × List PerfLine :=
  let d := detect_ddos ddos_model ddos_threshold r
  let s := detect_sql_xss sql_xss_model sql_xss_threshold r
  let results : Results :=
    { timestamp := ts
      processing_time := pt
      blocked := d.1 || s.1
      ddos_detected := d.1
      sql_xss_detected := s.1
      ddos_score := d.2
      sql_xss_score := s.2
      reason :=
        if d.1 then Reason.ddos_attack
        else if s.1 then Reason.sql_xss_attack
        else Reason.allowed }
  if auditOk then
    (results, log ++ [⟨ts, fmt6 pt, results.blocked⟩])
  else
    ({ results with blocked := true, reason := Reason.analysis_error }, log)

/-- Outcome of `WAFMLDetector.load_models`: either the two (optional)
model handles, or a process exit (`sys.exit(1)` from the `except`). -/
inductive LoadOutcome where
  | ok (ddos_model sql_xss_model : Option Model)
  | exit (code : Nat)

/-- `WAFMLDetector.load_models`: each model is loaded only if its file
exists (`os.path.exists`); a missing file is silently skipped.  Any
exception raised by `load_model` (an unreadable artifact) is caught and
turns into `sys.exit(1)`. -/
def load_models (ddos_exists : Bool) (ddos_load : Except Unit Model)
    (sql_exists : Bool) (sql_load : Except Unit Model) : LoadOutcome :=
  if ddos_exists then
    match ddos_load with
    | Except.error _ => LoadOutcome.exit 1
    | Except.ok dm =>
      if sql_exists then
        match sql_load with
        | Except.error _ => LoadOutcome.exit 1
        | Except.ok sm => LoadOutcome.ok (some dm) (some sm)
      else LoadOutcome.ok (some dm) none
  else
    if sql_exists then
      match sql_load with
      | Except.error _ => LoadOutcome.exit 1
      | Except.ok sm => LoadOutcome.ok none (some sm)
    else LoadOutcome.ok none none

/-- A request record with every field missing. -/
def rNone : RequestData := ⟨none, none, none, none, none, none, none⟩

/-- A request record with every field present but empty / zero. -/
def rEmpty : RequestData :=
  ⟨some "", some "", some "", some "", some [], some 0, some 0⟩

/-- C5: for every request record — including ones with missing or empty
fields — the volumetric feature vector has length exactly 30 and the
injection feature vector has length exactly 15. -/
theorem feature_lengths (r : RequestData) :
    (extract_ddos_features r).length = 30 ∧
    (extract_sql_xss_features r).length = 15 :=
  ⟨rfl, rfl⟩

/-- C7 counterexample: on a record with every field missing, the
connection-count feature (index 4 of the volumetric vector) is 1, not 0:
`dict.get('connection_count', 1)` defaults to 1, contradicting the claim
that a missing integer field is treated as zero. -/
theorem missing_connection_count_is_one :
    (extract_ddos_features rNone)[4]? = some 1 ∧ (1 : ℚ) ≠ 0 :=
  ⟨rfl, one_ne_zero⟩

/-- C7 amended: extraction never fails on missing fields; a missing string
field is treated as the empty string, missing headers as empty,
a missing `content_length` as 0, but a missing `connection_count` as 1
(not 0), and both extractors still return their declared lengths. -/
theorem extract_defaults (r : RequestData) :
    extract_ddos_features r =
      extract_ddos_features
        ⟨some (r.uri.getD ""), some (r.query_string.getD ""),
         some (r.post_data.getD ""), some (r.user_agent.getD ""),
         some (r.headers.getD []), some (r.content_length.getD 0),
         some (r.connection_count.getD 1)⟩ ∧
    extract_sql_xss_features r =
      extract_sql_xss_features
        ⟨some (r.uri.getD ""), some (r.query_string.getD ""),
         some (r.post_data.getD ""), some (r.user_agent.getD ""),
         some (r.headers.getD []), some (r.content_length.getD 0),
         some (r.connection_count.getD 1)⟩ ∧
    (extract_ddos_features r).length = 30 ∧
    (extract_sql_xss_features r).length = 15 :=
  ⟨rfl, rfl, rfl, rfl⟩

/-- C8 counterexample: with URI, query string and body all equal to the
empty string, the first injection feature is 2 (the two joining spaces of
`f"{uri} {query_string} {post_data}"`), not 0 as the claim's
concatenation-length reading requires. -/
theorem sql_xss_first_feature_empty_is_two :
    (extract_sql_xss_features rEmpty)[0]? = some 2 ∧ (2 : ℚ) ≠ 0 :=
  ⟨rfl, two_ne_zero⟩

/-- C8 amended: the first injection feature is the length of the
space-joined combination of URI, query string and body — the sum of the
three lengths plus 2 separator spaces (hence 2, not 0, when all three are
empty) — and the last two features are the raw lengths of the query string
and the body. -/
theorem sql_xss_feature_endpoints (r : RequestData) :
    (extract_sql_xss_features r)[0]? =
      some (((r.uri.getD "").length + (r.query_string.getD "").length +
             (r.post_data.getD "").length + 2 : ℕ) : ℚ) ∧
    (extract_sql_xss_features r)[13]? =
      some (((r.query_string.getD "").length : ℕ) : ℚ) ∧
    (extract_sql_xss_features r)[14]? =
      some (((r.post_data.getD "").length : ℕ) : ℚ) := by
  refine ⟨?_, rfl, rfl⟩
  show some (((r.uri.getD "" ++ " " ++ r.query_string.getD "" ++ " " ++
      r.post_data.getD "").data.length : ℕ) : ℚ) = _
  have h : (r.uri.getD "" ++ " " ++ r.query_string.getD "" ++ " " ++
      r.post_data.getD "").data.length =
      (r.uri.getD "").length + (r.query_string.getD "").length +
        (r.post_data.getD "").length + 2 := by
    show (r.uri.getD "" ++ " " ++ r.query_string.getD "" ++ " " ++
      r.post_data.getD "").length = _
    rw [String.length_append, String.length_append, String.length_append,
      String.length_append]
    have h1 : (" " : String).length = 1 := rfl
    rw [h1]
    omega
  rw [h]

/-- C10: with a `None` model handle a detector returns `(False, 0.0)`
(fail-open), so with both handles `None` every request is allowed on the
non-error path. -/
theorem none_models_allow (th1 th2 : ℚ) (r : RequestData) (ts pt : ℚ)
    (log : List PerfLine) :
    detect_ddos none th1 r = (false, 0) ∧
    detect_sql_xss none th2 r = (false, 0) ∧
    (analyze_request none none th1 th2 r ts pt true log).1.blocked = false ∧
    (analyze_request none none th1 th2 r ts pt true log).1.reason =
      Reason.allowed :=
  ⟨rfl, rfl, rfl, rfl⟩

/-- C4 counterexample: on an all-empty request with no models loaded, a
failing audit append turns the verdict from `blocked=false, allowed` into
`blocked=true, analysis_error` — the audit failure does alter the verdict. -/
theorem audit_failure_alters_verdict :
    (analyze_request none none (1/2) (1/2) rNone 0 0 false []).1.blocked =
      true ∧
    (analyze_request none none (1/2) (1/2) rNone 0 0 false []).1.reason =
      Reason.analysis_error ∧
    (analyze_request none none (1/2) (1/2) rNone 0 0 true []).1.blocked =
      false ∧
    (analyze_request none none (1/2) (1/2) rNone 0 0 true []).1.reason =
      Reason.allowed :=
  ⟨rfl, rfl, rfl, rfl⟩

/-- C4 amended: the audit append sits inside `analyze_request`'s `try`, so
a write failure is caught by the outer handler, which overrides the verdict
to `blocked=true, reason=analysis_error` while keeping the detector scores
already recorded; no line is appended. -/
theorem audit_failure_behavior (dm sm : Option Model) (t1 t2 : ℚ)
    (r : RequestData) (ts pt : ℚ) (log : List PerfLine) :
    (analyze_request dm sm t1 t2 r ts pt false log).1 =
      { (analyze_request dm sm t1 t2 r ts pt true log).1 with
          blocked := true, reason := Reason.analysis_error } ∧
    (analyze_request dm sm t1 t2 r ts pt false log).2 = log :=
  ⟨rfl, rfl⟩

/-- Unfolding of `detect_ddos` with a loaded model: the length guard never
fires (the extractor always returns 30 features), so the result is decided
by the inference call alone. -/
theorem detect_ddos_some_eq (predict : Model) (th : ℚ) (r : RequestData) :
    detect_ddos (some predict) th r =
      match predict (extract_ddos_features r) with
      | Except.error _ => (true, 1)
      | Except.ok p => (decide (th < p), p) := by
  have h30 : ¬ ((extract_ddos_features r).length ≠ 30) := fun h => h rfl
  simp only [detect_ddos, detect_ddos_core]
  rw [if_neg h30]

/-- Unfolding of `detect_sql_xss` with a loaded model: the length guard
never fires, so the result is decided by inference on the standardized
vector. -/
theorem detect_sql_xss_some_eq (predict : Model) (th : ℚ) (r : RequestData) :
    detect_sql_xss (some predict) th r =
      match predict (standardize (extract_sql_xss_features r) sql_xss_mean
          sql_xss_scale) with
      | Except.error _ => (true, 1)
      | Except.ok p => (decide (th < p), p) := by
  have h15 : ¬ ((extract_sql_xss_features r).length ≠ 15) := fun h => h rfl
  simp only [detect_sql_xss, detect_sql_xss_core]
  rw [if_neg h15]

/-- At the default threshold 0.5 the DDoS detector's triggered flag agrees,
in every branch (`None` handle, inference error, successful inference),
with "score strictly exceeds the threshold". -/
theorem detect_ddos_triggered_iff_score (dm : Option Model) (r : RequestData) :
    (detect_ddos dm (1/2) r).1 =
      decide ((1/2 : ℚ) < (detect_ddos dm (1/2) r).2) := by
  cases dm with
  | none => simp [detect_ddos]
  | some predict =>
    rw [detect_ddos_some_eq]
    cases predict (extract_ddos_features r) with
    | error e =>
      show true = decide ((1/2 : ℚ) < 1)
      symm
      rw [decide_eq_true_eq]
      norm_num
    | ok p => rfl

/-- Same as `detect_ddos_triggered_iff_score` for the SQL/XSS detector. -/
theorem detect_sql_xss_triggered_iff_score (sm : Option Model)
    (r : RequestData) :
    (detect_sql_xss sm (1/2) r).1 =
      decide ((1/2 : ℚ) < (detect_sql_xss sm (1/2) r).2) := by
  cases sm with
  | none => simp [detect_sql_xss]
  | some predict =>
    rw [detect_sql_xss_some_eq]
    cases predict (standardize (extract_sql_xss_features r) sql_xss_mean
        sql_xss_scale) with
    | error e =>
      show true = decide ((1/2 : ℚ) < 1)
      symm
      rw [decide_eq_true_eq]
      norm_num
    | ok p => rfl

/-- C1: at the default thresholds (0.5), the verdict follows the fixed
priority — volumetric triggered gives `blocked, ddos_attack` regardless of
the injection detector, otherwise injection triggered gives
`blocked, sql_xss_attack`, otherwise `allowed` — both detector scores are
always recorded in the verdict, and each detector's triggered flag
coincides with its score exceeding the threshold. -/
theorem analyze_request_priority (dm sm : Option Model) (r : RequestData)
    (ts pt : ℚ) (log : List PerfLine) :
    (analyze_request dm sm (1/2) (1/2) r ts pt true log).1.reason =
      (if (detect_ddos dm (1/2) r).1 then Reason.ddos_attack
       else if (detect_sql_xss sm (1/2) r).1 then Reason.sql_xss_attack
       else Reason.allowed) ∧
    (analyze_request dm sm (1/2) (1/2) r ts pt true log).1.blocked =
      ((detect_ddos dm (1/2) r).1 || (detect_sql_xss sm (1/2) r).1) ∧
    (analyze_request dm sm (1/2) (1/2) r ts pt true log).1.ddos_score =
      (detect_ddos dm (1/2) r).2 ∧
    (analyze_request dm sm (1/2) (1/2) r ts pt true log).1.sql_xss_score =
      (detect_sql_xss sm (1/2) r).2 ∧
    (detect_ddos dm (1/2) r).1 =
      decide ((1/2 : ℚ) < (detect_ddos dm (1/2) r).2) ∧
    (detect_sql_xss sm (1/2) r).1 =
      decide ((1/2 : ℚ) < (detect_sql_xss sm (1/2) r).2) :=
  ⟨rfl, rfl, rfl, rfl, detect_ddos_triggered_iff_score dm r,
   detect_sql_xss_triggered_iff_score sm r⟩

/-- C2: for a detector whose model is loaded, any error raised during
feature extraction or inference is absorbed inside the detector and yields
exactly `(triggered=true, score=1.0)`; the detectors are total functions,
so no exception ever reaches the caller. -/
theorem detectors_fail_closed (ext : RequestData → Except Unit (List ℚ))
    (predict : Model) (th : ℚ) (r : RequestData) :
    (∀ e, ext r = Except.error e →
      detect_ddos_core ext predict th r = (true, 1) ∧
      detect_sql_xss_core ext predict th r = (true, 1)) ∧
    (∀ fs e, ext r = Except.ok fs → predict fs = Except.error e →
      detect_ddos_core ext predict th r = (true, 1)) ∧
    (∀ fs e, ext r = Except.ok fs →
      predict (standardize fs sql_xss_mean sql_xss_scale) = Except.error e →
      detect_sql_xss_core ext predict th r = (true, 1)) := by
  refine ⟨?_, ?_, ?_⟩
  · intro e he
    constructor
    · unfold detect_ddos_core
      rw [he]
    · unfold detect_sql_xss_core
      rw [he]
  · intro fs e hok herr
    unfold detect_ddos_core
    by_cases h : fs.length = 30
    · simp [hok, h, herr]
    · simp [hok, h]
  · intro fs e hok herr
    unfold detect_sql_xss_core
    by_cases h : fs.length = 15
    · simp [hok, h, herr]
    · simp [hok, h]

/-- C2 witness: concrete extraction failure and concrete inference
failures all produce the fail-closed outcome `(true, 1.0)`. -/
theorem detectors_fail_closed_witness :
    detect_ddos_core (fun _ => Except.error ()) (fun _ => Except.ok 0) 0
      rNone = (true, 1) ∧
    detect_ddos_core (fun _ => Except.ok (List.replicate 30 0))
      (fun _ => Except.error ()) 0 rNone = (true, 1) ∧
    detect_sql_xss_core (fun _ => Except.ok (List.replicate 15 0))
      (fun _ => Except.error ()) 0 rNone = (true, 1) :=
  ⟨((detectors_fail_closed (fun _ => Except.error ()) (fun _ => Except.ok 0)
      0 rNone).1 () rfl).1,
   (detectors_fail_closed (fun _ => Except.ok (List.replicate 30 0))
      (fun _ => Except.error ()) 0 rNone).2.1 _ () rfl rfl,
   (detectors_fail_closed (fun _ => Except.ok (List.replicate 15 0))
      (fun _ => Except.error ()) 0 rNone).2.2 _ () rfl rfl⟩

/-- C3 counterexample: with both model files missing, `load_models` does
not abort — it returns normally with both handles `None` (and `ok` is not
an exit). -/
theorem missing_models_no_abort :
    load_models false (Except.error ()) false (Except.error ()) =
      LoadOutcome.ok none none ∧
    LoadOutcome.ok none none ≠ LoadOutcome.exit 1 :=
  ⟨rfl, fun h => LoadOutcome.noConfusion h⟩

/-- C3 amended: only a model artifact that exists but fails to load aborts
the process with exit code 1; a missing artifact is silently skipped,
leaving its handle `None` — a degraded mode in which the classifier runs
without that model. -/
theorem load_models_behavior (dl sl : Except Unit Model) (m : Model)
    (se : Bool) :
    load_models true (Except.error ()) se sl = LoadOutcome.exit 1 ∧
    load_models true (Except.ok m) true (Except.error ()) =
      LoadOutcome.exit 1 ∧
    load_models false dl true (Except.error ()) = LoadOutcome.exit 1 ∧
    load_models false dl false sl = LoadOutcome.ok none none ∧
    load_models false dl true (Except.ok m) = LoadOutcome.ok none (some m) ∧
    load_models true (Except.ok m) false sl = LoadOutcome.ok (some m) none :=
  ⟨rfl, rfl, rfl, rfl, rfl, rfl⟩

/-- `standardize` stops at the shortest of its three inputs, like
Python's `zip`. -/
theorem standardize_length (xs ms ss : List ℚ) :
    (standardize xs ms ss).length = min xs.length (min ms.length ss.length) := by
  induction xs generalizing ms ss with
  | nil => simp [standardize]
  | cons a as ih =>
    cases ms with
    | nil => simp [standardize]
    | cons b bs =>
      cases ss with
      | nil => simp [standardize]
      | cons c cs =>
        show (standardize as bs cs).length + 1 = _
        rw [ih]
        simp only [List.length_cons]
        omega

/-- Element-wise description of `standardize`. -/
theorem standardize_getElem (xs ms ss : List ℚ) (i : ℕ) (x m s : ℚ)
    (hx : xs[i]? = some x) (hm : ms[i]? = some m) (hs : ss[i]? = some s) :
    (standardize xs ms ss)[i]? = some (if s = 0 then 0 else (x - m) / s) := by
  induction xs generalizing ms ss i with
  | nil => simp at hx
  | cons a as ih =>
    cases ms with
    | nil => simp at hm
    | cons b bs =>
      cases ss with
      | nil => simp at hs
      | cons c cs =>
        have hcons : standardize (a :: as) (b :: bs) (c :: cs) =
            (if c = 0 then 0 else (a - b) / c) :: standardize as bs cs := by
          simp [standardize]
        cases i with
        | zero =>
          simp only [List.getElem?_cons_zero, Option.some.injEq] at hx hm hs
          subst hx; subst hm; subst hs
          rw [hcons, List.getElem?_cons_zero]
        | succ n =>
          simp only [List.getElem?_cons_succ] at hx hm hs
          rw [hcons, List.getElem?_cons_succ]
          exact ih bs cs n hx hm hs

/-- C6: standardization of a 15-element injection vector with the fixed
constant tables is element-wise `(x - mean) / scale`, with contribution
exactly 0 whenever the scale constant is 0 (never a division fault), and
preserves the input length. -/
theorem standardize_spec (xs : List ℚ) (h : xs.length = 15) :
    (standardize xs sql_xss_mean sql_xss_scale).length = xs.length ∧
    ∀ (i : ℕ) (x m s : ℚ), xs[i]? = some x → sql_xss_mean[i]? = some m →
      sql_xss_scale[i]? = some s →
      (standardize xs sql_xss_mean sql_xss_scale)[i]? =
        some (if s = 0 then 0 else (x - m) / s) := by
  constructor
  · rw [standardize_length, h]
    rfl
  · intro i x m s hx hm hs
    exact standardize_getElem xs sql_xss_mean sql_xss_scale i x m s hx hm hs

/-- C6 witness: on the all-zero 15-vector, standardization preserves the
length, and at index 12 — whose scale constant is 0 — the result is
exactly 0. -/
theorem standardize_spec_witness :
    (standardize (List.replicate 15 (0:ℚ)) sql_xss_mean sql_xss_scale).length
      = (List.replicate 15 (0:ℚ)).length ∧
    (standardize (List.replicate 15 (0:ℚ)) sql_xss_mean sql_xss_scale)[12]?
      = some 0 := by
  have h := standardize_spec (List.replicate 15 (0:ℚ)) rfl
  refine ⟨h.1, ?_⟩
  have hm : sql_xss_mean[12]? = some 1 := by
    show some (1.0 : ℚ) = some 1
    norm_num
  have hs : sql_xss_scale[12]? = some 0 := by
    show some (0.0 : ℚ) = some 0
    norm_num
  have h12 := h.2 12 0 1 0 rfl hm hs
  simpa using h12

/-- C9: on the non-error path exactly one line is appended to the
performance log; its timestamp and blocked fields equal the verdict's, and
its 6-decimal-formatted processing time is within half an ulp
(1/2000000) of the verdict's processing time. -/
theorem audit_round_trip (dm sm : Option Model) (t1 t2 : ℚ)
    (r : RequestData) (ts pt : ℚ) (log : List PerfLine) :
    (analyze_request dm sm t1 t2 r ts pt true log).2 =
      log ++ [⟨ts, fmt6 pt,
        (analyze_request dm sm t1 t2 r ts pt true log).1.blocked⟩] ∧
    (analyze_request dm sm t1 t2 r ts pt true log).1.timestamp = ts ∧
    (analyze_request dm sm t1 t2 r ts pt true log).1.processing_time = pt ∧
    |fmt6 pt - pt| ≤ 1 / 2000000 := by
  refine ⟨rfl, rfl, rfl, ?_⟩
  have h : fmt6 pt - pt =
      (((round (pt * 1000000) : ℤ) : ℚ) - pt * 1000000) / 1000000 := by
    unfold fmt6; ring
  rw [h, abs_div]
  have h2 : |(1000000 : ℚ)| = 1000000 := by norm_num
  rw [h2]
  have h3 : |((round (pt * 1000000) : ℤ) : ℚ) - pt * 1000000| ≤ 1/2 := by
    rw [abs_sub_comm]
    exact abs_sub_round (pt * 1000000)
  linarith

end WAF
